import Mathlib

/-!
Shallow embedding of the mDNS responder core (package mdns, server.go).
DNS messages are modelled structurally, the Zone capability is a function
from questions to record lists, sockets are identifiers, and the shutdown
channel is an explicit three-valued state.  Each definition mirrors one Go
function of server.go; outbound traffic, log lines and local errors are
returned explicitly instead of performed as side effects.
-/

namespace Mdns

/-- A DNS resource record: opaque to the responder core, produced by the
Zone and copied into answer sections without inspection. -/
structure RR where
  rname : String
  rtype : Nat
  rdata : Nat
deriving DecidableEq, Repr

/-- A DNS question: name, record type, and class value whose top bit
signals that a unicast response is preferred. -/
structure Question where
  name : String
  qtype : Nat
  qclass : Nat
deriving DecidableEq, Repr

/-- DNS message header (dns.MsgHdr of the codec): transaction id, the
query/response, authoritative, truncation, recursion and related flag
bits, the opcode and the response code. -/
structure MsgHdr where
  id : Nat
  response : Bool
  opcode : Nat
  authoritative : Bool
  truncated : Bool
  recursionDesired : Bool
  recursionAvailable : Bool
  zero : Bool
  authenticatedData : Bool
  checkingDisabled : Bool
  rcode : Nat
deriving DecidableEq, Repr

/-- A DNS message (dns.Msg): header, question section, answer section and
the codec compression request flag. -/
structure Msg where
  hdr : MsgHdr
  compress : Bool
  question : List Question
  answer : List RR
deriving DecidableEq, Repr

/-- OpcodeQuery of the dns codec: the standard-query opcode, equal to 0. -/
def OpcodeQuery : Nat := 0

/-- The package-level constant forceUnicastResponses (server.go line 24). -/
def forceUnicastResponses : Bool := false

/-- Server configuration (Config, server.go 39-53): the Zone capability,
the empty-response logging flag and the IPv6 enable flag.  Iface only
affects socket binding and is not modelled. -/
structure Config where
  zone : Question → List RR
  logEmptyResponses : Bool
  ipv6 : Bool

/-- The state of the shutdown channel: never allocated (the Go zero
value), allocated and open, or closed. -/
inductive ChanState
  | chNil
  | chOpen
  | chClosed
deriving DecidableEq, Repr

/-- The Server struct (server.go 57-65): the config pointer, the two
optional socket handles, the atomic shutdown flag and the shutdown
channel.  Option models nil pointers; sockets are identifiers. -/
structure Server where
  config : Option Config
  ipv4List : Option Nat
  ipv6List : Option Nat
  shutdown : Nat
  shutdownCh : ChanState

/-- handleQuestion (server.go 412-434): ask the Zone for records; an empty
result contributes to neither set; the top bit of the question class, or
the force-unicast constant, routes every record to the unicast set,
otherwise to the multicast set.  Returns (multicastRecs, unicastRecs). -/
def handleQuestion (cfg : Config) (q : Question) : List RR × List RR :=
  let records := cfg.zone q
  if records.length = 0 then ([], [])
  else if q.qclass &&& (1 <<< 15) ≠ 0 ∨ forceUnicastResponses = true then ([], records)
  else (records, [])

/-- The multicast answer set handleQuery accumulates over the questions of
a query, in question order (server.go 328-332). -/
def mAnswers (cfg : Config) (query : Msg) : List RR :=
  ((query.question.map (handleQuestion cfg)).map Prod.fst).flatten

/-- The unicast answer set handleQuery accumulates over the questions of a
query, in question order (server.go 328-332). -/
def uAnswers (cfg : Config) (query : Msg) : List RR :=
  ((query.question.map (handleQuestion cfg)).map Prod.snd).flatten

/-- The resp closure of handleQuery (server.go 335-385): pick id 0 for the
multicast path and the query id for the unicast path, pick the matching
answer set, return no message when that set is empty, and otherwise
build the response with the RFC 6762 section 18 header bits and
compression requested. -/
def buildResp (query : Msg) (unicast : Bool) (multicastAnswer unicastAnswer : List RR) :
    Option Msg :=
  let id := if unicast then query.hdr.id else 0
  let answer := if unicast then unicastAnswer else multicastAnswer
  if answer.length = 0 then none
  else
    some
      { hdr :=
          { id := id
            response := true
            opcode := OpcodeQuery
            authoritative := true
            truncated := false
            recursionDesired := false
            recursionAvailable := false
            zero := false
            authenticatedData := false
            checkingDisabled := false
            rcode := 0 }
        compress := true
        question := []
        answer := answer }

/-- The socket an outbound packet is written to. -/
inductive Sock
  | v4
  | v6
deriving DecidableEq, Repr

/-- The sender address of an inbound packet; isV4 models that the Go
expression addr.IP.To4() returned non-nil. -/
structure Addr where
  isV4 : Bool
deriving DecidableEq, Repr

/-- One outbound UDP write: the socket written to, the message and the
destination address. -/
structure Send where
  sock : Sock
  msg : Msg
  dest : Addr
deriving DecidableEq, Repr

/-- sendResponse (server.go 437-457): an IPv4 sender is answered on the
IPv4 socket; otherwise the IPv6 socket is used when the config enables
IPv6; otherwise nothing is sent and nil is returned.  Packing is
modelled as always succeeding; the write list is the outbound traffic
and the Option String the returned error. -/
def sendResponse (cfg : Config) (resp : Msg) (src : Addr) : List Send × Option String :=
  if src.isV4 then ([⟨Sock.v4, resp, src⟩], none)
  else if cfg.ipv6 then ([⟨Sock.v6, resp, src⟩], none)
  else ([], none)

/-- The local error handleQuery reports for a protocol-invalid query. -/
inductive QueryError
  | badOpcode
  | badRcode
  | truncated
deriving DecidableEq, Repr

/-- handleQuery (server.go 300-406): validate the opcode, then the response
code, then the truncation bit, dropping the message with a local error
when a check fails; otherwise accumulate the two answer sets over the
questions, log one line when both sets are empty and LogEmptyResponses
is set, and send the multicast response followed by the unicast
response, each only when built.  Returns (sends, logLines, error). -/
def handleQuery (cfg : Config) (query : Msg) (src : Addr) :
    List Send × List String × Option QueryError :=
  if query.hdr.opcode ≠ OpcodeQuery then ([], [], some QueryError.badOpcode)
  else if query.hdr.rcode ≠ 0 then ([], [], some QueryError.badRcode)
  else if query.hdr.truncated then ([], [], some QueryError.truncated)
  else
    let multicastAnswer := mAnswers cfg query
    let unicastAnswer := uAnswers cfg query
    let logs :=
      if cfg.logEmptyResponses = true ∧ multicastAnswer = [] ∧ unicastAnswer = [] then
        ["no responses for query with questions: " ++
          String.intercalate ", " (query.question.map Question.name)]
      else []
    let msends :=
      match buildResp query false multicastAnswer unicastAnswer with
      | some m => (sendResponse cfg m src).1
      | none => []
    let usends :=
      match buildResp query true multicastAnswer unicastAnswer with
      | some m => (sendResponse cfg m src).1
      | none => []
    (msends ++ usends, logs, none)

/-- One observed iteration of the receive loop: the shutdown flag value
loaded at the top, whether the blocking read returned an error, and
whether parsePacket returned an error for the read packet. -/
structure RecvStep where
  flag : Nat
  readErr : Bool
  handleErr : Bool
deriving DecidableEq, Repr

/-- The receive loop of recv (server.go 277-286) run over a finite trace of
iterations: each iteration first loads the shutdown flag and exits the
loop when it is non-zero; a read error retries unconditionally; a
handling error is logged and the loop continues.  Returns the log lines
and the index of the iteration whose flag check terminated the loop
(none when the trace ends with the loop still running). -/
def recvRun : List RecvStep → List String × Option Nat
  | [] => ([], none)
  | step :: rest =>
    if step.flag ≠ 0 then ([], some 0)
    else
      let line :=
        if step.readErr = false ∧ step.handleErr = true then
          ["[ERR] mdns: Failed to handle query"]
        else []
      let tail := recvRun rest
      (line ++ tail.1, tail.2.map (· + 1))

/-- NewServer (server.go 207-249) on the success path, both binds
succeeding with the given socket handles.  Mirrors the code exactly:
the first Server literal holds the config, the IPv4 socket and a fresh
shutdown channel; when the config enables IPv6 a second Server literal
holding only the IPv6 socket replaces it, every other field reverting
to its zero value; one receive task is spawned per guard, each handed
the named field of the current Server value (so the IPv4 task receives
the ipv4List field of whichever literal is current).  Returns the
server together with the connection argument of each spawned task in
spawn order. -/
def NewServer (cfg : Config) (v4Sock v6Sock : Nat) : Server × List (Option Nat) :=
  let s : Server :=
    { config := some cfg
      ipv4List := some v4Sock
      ipv6List := none
      shutdown := 0
      shutdownCh := ChanState.chOpen }
  let p :=
    if cfg.ipv6 = true then
      let s6 : Server :=
        { config := none
          ipv4List := none
          ipv6List := some v6Sock
          shutdown := 0
          shutdownCh := ChanState.chNil }
      (s6, [s6.ipv6List])
    else (s, ([] : List (Option Nat)))
  (p.1, p.2 ++ [p.1.ipv4List])

/-- recv returns before entering its loop when handed a nil connection
(server.go 273-275): a spawned receive task only runs the loop when its
connection argument is non-nil. -/
def recvTaskLoops (conn : Option Nat) : Bool :=
  conn.isSome

/-- An observable side effect of Shutdown: closing the shutdown channel or
closing a socket, recording the error the close returned (which the
code discards). -/
inductive Effect
  | closeChan
  | closeV4 (err : Option String)
  | closeV6 (err : Option String)
deriving DecidableEq, Repr

/-- The outcome of one Shutdown call: a normal return carrying the new
server state, the performed effects and the returned error, or a
runtime crash (closing a nil or closed channel, or reading the Ipv6
field through a nil config pointer). -/
inductive Outcome
  | ok (s : Server) (effects : List Effect) (ret : Option String)
  | panicked (msg : String)

/-- Shutdown (server.go 252-269): a compare-and-swap on the shutdown flag
guards the transition and a losing caller returns nil at once.  The
winner closes the shutdown channel, closes the IPv4 socket when
present, and closes the IPv6 socket when the config enables IPv6 and it
is present; both Close return values are discarded and nil is returned.
The closeV4Err and closeV6Err arguments are the errors the socket
closes would report. -/
def Shutdown (closeV4Err closeV6Err : Option String) (s : Server) : Outcome :=
  if s.shutdown ≠ 0 then Outcome.ok s [] none
  else
    let s1 : Server := { s with shutdown := 1 }
    match s1.shutdownCh with
    | ChanState.chOpen =>
      let s2 : Server := { s1 with shutdownCh := ChanState.chClosed }
      let e4 := if s2.ipv4List.isSome then [Effect.closeV4 closeV4Err] else []
      match s2.config with
      | none => Outcome.panicked "runtime error: invalid memory address or nil pointer dereference"
      | some cfg =>
        let e6 := if cfg.ipv6 = true ∧ s2.ipv6List.isSome then [Effect.closeV6 closeV6Err] else []
        Outcome.ok s2 (Effect.closeChan :: (e4 ++ e6)) none
    | _ => Outcome.panicked "close of nil channel"

/-- Iterated Shutdown: apply the call n times, threading the server state;
a crash aborts the iteration at the last state. -/
def shutdownTimes (closeV4Err closeV6Err : Option String) : Nat → Server → Server
  | 0, s => s
  | n + 1, s =>
    match Shutdown closeV4Err closeV6Err s with
    | Outcome.ok s1 _ _ => shutdownTimes closeV4Err closeV6Err n s1
    | Outcome.panicked _ => s

/-- The response message shape stated by the specification: the given
transaction id, response and authoritative bits set, opcode
standard-query, all remaining header bits and the response code clear,
compression requested, and the given answer section. -/
def expectedResp (id : Nat) (answer : List RR) : Msg :=
  { hdr :=
      { id := id
        response := true
        opcode := OpcodeQuery
        authoritative := true
        truncated := false
        recursionDesired := false
        recursionAvailable := false
        zero := false
        authenticatedData := false
        checkingDisabled := false
        rcode := 0 }
    compress := true
    question := []
    answer := answer }

/-- A sample record used by concrete witnesses. -/
def wRec : RR := ⟨"host.local.", 1, 42⟩

/-- A sample config with an empty zone, logging off and IPv6 off. -/
def wCfg : Config := { zone := fun _ => [], logEmptyResponses := false, ipv6 := false }

/-- A sample config with an empty zone and IPv6 on. -/
def wCfg6 : Config := { zone := fun _ => [], logEmptyResponses := false, ipv6 := true }

/-- A sample config whose zone returns one record for every question. -/
def wCfgRec : Config := { zone := fun _ => [wRec], logEmptyResponses := true, ipv6 := false }

/-- A sample config with an empty zone and empty-response logging on. -/
def wCfgLog : Config := { zone := fun _ => [], logEmptyResponses := true, ipv6 := false }

/-- A sample header with a non-standard opcode. -/
def wHdrBad : MsgHdr := ⟨7, false, 5, false, false, false, false, false, false, false, 0⟩

/-- A sample valid query header. -/
def wHdrOk : MsgHdr := ⟨7, false, 0, false, false, false, false, false, false, false, 0⟩

/-- A sample question with the class top bit clear. -/
def wQ : Question := ⟨"host.local.", 1, 1⟩

/-- A sample message with a non-standard opcode. -/
def wMsgBad : Msg := ⟨wHdrBad, false, [wQ], []⟩

/-- A sample valid query message with one question. -/
def wMsgOk : Msg := ⟨wHdrOk, false, [wQ], []⟩

/-- A sample IPv4 sender address. -/
def wAddr : Addr := ⟨true⟩

/-- A sample live server: config present, IPv4 socket bound, flag clear,
channel open. -/
def wSrv : Server :=
  { config := some wCfg
    ipv4List := some 0
    ipv6List := none
    shutdown := 0
    shutdownCh := ChanState.chOpen }

/-- A sample receive trace: a read error, a handling error, then a shutdown
observation. -/
def wTrace : List RecvStep := [⟨0, true, false⟩, ⟨0, false, true⟩, ⟨1, false, false⟩]

/-- Helper: handleQuestion written as one conditional.  When the zone
result is empty both branches coincide with the empty pair, so the
routing collapses to the class top bit test (forceUnicastResponses
being false). -/
theorem handleQuestion_eq_ite (cfg : Config) (q : Question) :
    handleQuestion cfg q =
      if q.qclass &&& (1 <<< 15) ≠ 0 then ([], cfg.zone q) else (cfg.zone q, []) := by
  unfold handleQuestion
  by_cases hz : (cfg.zone q).length = 0
  · have hz' : cfg.zone q = [] := List.length_eq_zero.mp hz
    simp [hz, hz']
  · by_cases hb : q.qclass &&& (1 <<< 15) ≠ 0
    · simp [hz, hb, forceUnicastResponses]
    · simp [hz, hb, forceUnicastResponses]

/-- Claim C1: a received message whose opcode is non-zero, whose response
code is non-zero or whose truncation bit is set produces zero outbound
packets and a local error, the checks firing in the order opcode, then
response code, then truncation. -/
theorem handleQuery_invalid_drops (cfg : Config) (query : Msg) (src : Addr)
    (h : query.hdr.opcode ≠ OpcodeQuery ∨ query.hdr.rcode ≠ 0 ∨ query.hdr.truncated = true) :
    (handleQuery cfg query src).1 = [] ∧
    (handleQuery cfg query src).2.2 =
      some (if query.hdr.opcode ≠ OpcodeQuery then QueryError.badOpcode
        else if query.hdr.rcode ≠ 0 then QueryError.badRcode
        else QueryError.truncated) := by
  unfold handleQuery
  by_cases h1 : query.hdr.opcode = OpcodeQuery
  · by_cases h2 : query.hdr.rcode = 0
    · have h3 : query.hdr.truncated = true := by
        rcases h with h | h | h
        · exact absurd h1 h
        · exact absurd h2 h
        · exact h
      simp [h1, h2, h3]
    · simp [h1, h2]
  · simp [h1]

/-- Witness for claim C1 at a concrete query with opcode 5. -/
theorem handleQuery_invalid_drops_witness :
    (wMsgBad.hdr.opcode ≠ OpcodeQuery ∨ wMsgBad.hdr.rcode ≠ 0 ∨ wMsgBad.hdr.truncated = true) ∧
    ((handleQuery wCfg wMsgBad wAddr).1 = [] ∧
      (handleQuery wCfg wMsgBad wAddr).2.2 =
        some (if wMsgBad.hdr.opcode ≠ OpcodeQuery then QueryError.badOpcode
          else if wMsgBad.hdr.rcode ≠ 0 then QueryError.badRcode
          else QueryError.truncated)) :=
  ⟨Or.inl (by decide), handleQuery_invalid_drops wCfg wMsgBad wAddr (Or.inl (by decide))⟩

/-- Claim C3: the records the Zone returns for a question go exclusively to
the unicast answer set when the class top bit (bit 15) is set and
exclusively to the multicast answer set when it is clear; no record of
the question appears in both sets. -/
theorem handleQuestion_routing (cfg : Config) (q : Question) :
    (if q.qclass &&& (1 <<< 15) ≠ 0 then
      (handleQuestion cfg q).2 = cfg.zone q ∧ (handleQuestion cfg q).1 = []
     else
      (handleQuestion cfg q).1 = cfg.zone q ∧ (handleQuestion cfg q).2 = []) ∧
    ∀ r : RR, ¬(r ∈ (handleQuestion cfg q).1 ∧ r ∈ (handleQuestion cfg q).2) := by
  rw [handleQuestion_eq_ite]
  by_cases hb : q.qclass &&& 32768 = 0
  · simp [hb]
  · simp [hb]

/-- Claim C10: forceUnicastResponses is the constant false, so the routing
disjunction in handleQuestion collapses to the class top bit test alone
and the force-unicast branch is never the deciding condition. -/
theorem forceUnicast_constant :
    forceUnicastResponses = false ∧
    (∀ q : Question,
      ((q.qclass &&& (1 <<< 15) ≠ 0 ∨ forceUnicastResponses = true) ↔
        q.qclass &&& (1 <<< 15) ≠ 0)) ∧
    ∀ cfg q, handleQuestion cfg q =
      if q.qclass &&& (1 <<< 15) ≠ 0 then ([], cfg.zone q) else (cfg.zone q, []) := by
  refine ⟨rfl, fun q => ?_, fun cfg q => handleQuestion_eq_ite cfg q⟩
  simp [forceUnicastResponses]

/-- Claim C8: sendResponse picks the socket by the sender address family:
an IPv4 sender is answered on the IPv4 socket; otherwise the reply goes
out the IPv6 socket when the config enables IPv6; otherwise no packet
is sent and no error is returned. -/
theorem sendResponse_selection (cfg : Config) (resp : Msg) (src : Addr) :
    (src.isV4 = true → sendResponse cfg resp src = ([⟨Sock.v4, resp, src⟩], none)) ∧
    (src.isV4 = false → cfg.ipv6 = true →
      sendResponse cfg resp src = ([⟨Sock.v6, resp, src⟩], none)) ∧
    (src.isV4 = false → cfg.ipv6 = false →
      (sendResponse cfg resp src).1 = [] ∧ (sendResponse cfg resp src).2 = none) := by
  refine ⟨fun h4 => ?_, fun h4 h6 => ?_, fun h4 h6 => ?_⟩ <;>
    simp [sendResponse, h4] <;> simp [h6]

/-- Claim C4: for a non-empty answer set the built response carries id 0
on the multicast path and the query id on the unicast path, the
response and authoritative bits set, opcode standard-query, every other
header bit and the response code clear, the accumulated set as answer
section and compression requested; for an empty set no message is
built, and on a valid query handleQuery sends on each path exactly the
writes of the message built for that path (so an unbuilt message is
never sent). -/
theorem buildResp_shape (query : Msg) (mAns uAns : List RR) :
    (buildResp query false mAns uAns =
      if mAns = [] then none else some (expectedResp 0 mAns)) ∧
    (buildResp query true mAns uAns =
      if uAns = [] then none else some (expectedResp query.hdr.id uAns)) ∧
    (∀ cfg src, query.hdr.opcode = OpcodeQuery → query.hdr.rcode = 0 →
      query.hdr.truncated = false →
      mAns = mAnswers cfg query → uAns = uAnswers cfg query →
      (handleQuery cfg query src).1 =
        (buildResp query false mAns uAns).elim [] (fun m => (sendResponse cfg m src).1) ++
          (buildResp query true mAns uAns).elim [] (fun m => (sendResponse cfg m src).1)) := by
  refine ⟨?_, ?_, ?_⟩
  · unfold buildResp expectedResp
    by_cases hm : mAns = []
    · simp [hm]
    · simp [hm, List.length_eq_zero]
  · unfold buildResp expectedResp
    by_cases hu : uAns = []
    · simp [hu]
    · simp [hu, List.length_eq_zero]
  · intro cfg src hop hrc htc hm hu
    subst hm
    subst hu
    unfold handleQuery
    simp only [hop, hrc, htc, ne_eq, not_true_eq_false, if_false, Bool.false_eq_true,
      ite_false, ite_true, not_false_eq_true]
    cases buildResp query false (mAnswers cfg query) (uAnswers cfg query) <;>
      cases buildResp query true (mAnswers cfg query) (uAnswers cfg query) <;> simp

/-- Witness for claim C4 at a concrete valid query and a zone with one
record. -/
theorem buildResp_shape_witness :
    wMsgOk.hdr.opcode = OpcodeQuery ∧
    (handleQuery wCfgRec wMsgOk wAddr).1 =
      (buildResp wMsgOk false (mAnswers wCfgRec wMsgOk) (uAnswers wCfgRec wMsgOk)).elim []
          (fun m => (sendResponse wCfgRec m wAddr).1) ++
        (buildResp wMsgOk true (mAnswers wCfgRec wMsgOk) (uAnswers wCfgRec wMsgOk)).elim []
          (fun m => (sendResponse wCfgRec m wAddr).1) :=
  ⟨rfl,
    (buildResp_shape wMsgOk (mAnswers wCfgRec wMsgOk) (uAnswers wCfgRec wMsgOk)).2.2
      wCfgRec wAddr rfl rfl rfl rfl rfl⟩

/-- Claim C7: a question with an empty Zone result contributes no records
to either answer set; when every question of a valid query is empty, no
reply packet is sent on either path and exactly one diagnostic line
listing the queried names is logged when LogEmptyResponses is set, zero
otherwise. -/
theorem handleQuery_empty_zone (cfg : Config) (query : Msg) (src : Addr)
    (hop : query.hdr.opcode = OpcodeQuery) (hrc : query.hdr.rcode = 0)
    (htc : query.hdr.truncated = false)
    (hall : ∀ q ∈ query.question, cfg.zone q = []) :
    (∀ q : Question, cfg.zone q = [] → handleQuestion cfg q = ([], [])) ∧
    (handleQuery cfg query src).1 = [] ∧
    (handleQuery cfg query src).2.1 =
      (if cfg.logEmptyResponses = true then
        ["no responses for query with questions: " ++
          String.intercalate ", " (query.question.map Question.name)]
      else []) := by
  have hq0 : ∀ q : Question, cfg.zone q = [] → handleQuestion cfg q = ([], []) := by
    intro q hq
    rw [handleQuestion_eq_ite, hq]
    simp
  have hm : mAnswers cfg query = [] := by
    unfold mAnswers
    rw [List.flatten_eq_nil_iff]
    intro xs hxs
    simp only [List.mem_map] at hxs
    obtain ⟨p, hp, rfl⟩ := hxs
    obtain ⟨q, hq, rfl⟩ := hp
    rw [hq0 q (hall q hq)]
  have hu : uAnswers cfg query = [] := by
    unfold uAnswers
    rw [List.flatten_eq_nil_iff]
    intro xs hxs
    simp only [List.mem_map] at hxs
    obtain ⟨p, hp, rfl⟩ := hxs
    obtain ⟨q, hq, rfl⟩ := hp
    rw [hq0 q (hall q hq)]
  refine ⟨hq0, ?_, ?_⟩
  · unfold handleQuery
    simp [hop, hrc, htc, hm, hu, buildResp]
  · unfold handleQuery
    simp [hop, hrc, htc, hm, hu]

/-- Witness for claim C7 at a concrete valid query over an empty zone with
logging on. -/
theorem handleQuery_empty_zone_witness :
    (∀ q ∈ wMsgOk.question, wCfgLog.zone q = []) ∧
    ((∀ q : Question, wCfgLog.zone q = [] → handleQuestion wCfgLog q = ([], [])) ∧
      (handleQuery wCfgLog wMsgOk wAddr).1 = [] ∧
      (handleQuery wCfgLog wMsgOk wAddr).2.1 =
        (if wCfgLog.logEmptyResponses = true then
          ["no responses for query with questions: " ++
            String.intercalate ", " (wMsgOk.question.map Question.name)]
        else [])) :=
  ⟨fun _ _ => rfl,
    handleQuery_empty_zone wCfgLog wMsgOk wAddr rfl rfl rfl (fun _ _ => rfl)⟩

/-- Witness for claim C8 at a concrete IPv4 sender. -/
theorem sendResponse_selection_witness :
    wAddr.isV4 = true ∧
    sendResponse wCfg (expectedResp 0 [wRec]) wAddr =
      ([⟨Sock.v4, expectedResp 0 [wRec], wAddr⟩], none) :=
  ⟨rfl, (sendResponse_selection wCfg (expectedResp 0 [wRec]) wAddr).1 rfl⟩

/-- Claim C2: the constructor state, both binds succeeding.  With IPv6
enabled the second Server literal replaces the first, so the returned
instance keeps only the IPv6 socket: the config, the IPv4 socket and
the shutdown channel revert to their zero values, the IPv4 receive task
is spawned with a nil connection, and only one of the two spawned tasks
runs a receive loop.  With IPv6 disabled the instance keeps the config,
the IPv4 socket and the open channel, and its single task loops. -/
theorem newServer_state (cfg : Config) (v4Sock v6Sock : Nat) :
    if cfg.ipv6 = true then
      (NewServer cfg v4Sock v6Sock).1.config = none ∧
      (NewServer cfg v4Sock v6Sock).1.ipv4List = none ∧
      (NewServer cfg v4Sock v6Sock).1.ipv6List = some v6Sock ∧
      (NewServer cfg v4Sock v6Sock).1.shutdownCh = ChanState.chNil ∧
      (NewServer cfg v4Sock v6Sock).2 = [some v6Sock, none] ∧
      (NewServer cfg v4Sock v6Sock).2.countP recvTaskLoops = 1
    else
      (NewServer cfg v4Sock v6Sock).1.config = some cfg ∧
      (NewServer cfg v4Sock v6Sock).1.ipv4List = some v4Sock ∧
      (NewServer cfg v4Sock v6Sock).1.shutdownCh = ChanState.chOpen ∧
      (NewServer cfg v4Sock v6Sock).2 = [some v4Sock] ∧
      (NewServer cfg v4Sock v6Sock).2.countP recvTaskLoops = 1 := by
  by_cases h : cfg.ipv6 = true
  · simp [NewServer, h, recvTaskLoops, List.countP, List.countP.go]
  · simp [NewServer, h, recvTaskLoops, List.countP, List.countP.go]

/-- Helper: a server whose shutdown flag is already set makes every
Shutdown call a no-op returning nil. -/
theorem shutdown_noop (e4 e6 : Option String) (s : Server) (h : s.shutdown ≠ 0) :
    Shutdown e4 e6 s = Outcome.ok s [] none := by
  unfold Shutdown
  rw [if_pos h]

/-- Helper: iterated Shutdown leaves an already-shut server unchanged. -/
theorem shutdownTimes_fixed (e4 e6 : Option String) (n : Nat) (s : Server)
    (h : s.shutdown ≠ 0) : shutdownTimes e4 e6 n s = s := by
  induction n with
  | zero => rfl
  | succ n ih =>
    simp only [shutdownTimes, shutdown_noop e4 e6 s h]
    exact ih

/-- Claim C5: on a live server the compare-and-swap lets exactly the first
call perform the transition (closing the channel and the present
sockets, with nil returned); every later call is a no-op returning nil
without crashing and without effects (so the sockets close exactly
once), and N iterated calls for any N greater than one leave the same
final state as one call. -/
theorem shutdown_idempotent (s : Server) (cfg : Config) (e4 e6 : Option String)
    (hflag : s.shutdown = 0) (hch : s.shutdownCh = ChanState.chOpen)
    (hcfg : s.config = some cfg) :
    ∃ s1 : Server,
      Shutdown e4 e6 s =
        Outcome.ok s1
          (Effect.closeChan ::
            ((if s.ipv4List.isSome then [Effect.closeV4 e4] else []) ++
              (if cfg.ipv6 = true ∧ s.ipv6List.isSome then [Effect.closeV6 e6] else [])))
          none ∧
      s1.shutdown = 1 ∧ s1.shutdownCh = ChanState.chClosed ∧
      (∀ e4a e6a : Option String, Shutdown e4a e6a s1 = Outcome.ok s1 [] none) ∧
      (∀ n : Nat, shutdownTimes e4 e6 (n + 1) s = shutdownTimes e4 e6 1 s) := by
  have hmain : Shutdown e4 e6 s =
      Outcome.ok { s with shutdown := 1, shutdownCh := ChanState.chClosed }
        (Effect.closeChan ::
          ((if s.ipv4List.isSome then [Effect.closeV4 e4] else []) ++
            (if cfg.ipv6 = true ∧ s.ipv6List.isSome then [Effect.closeV6 e6] else [])))
        none := by
    unfold Shutdown
    simp [hflag, hch, hcfg]
  have hne : ({ s with shutdown := 1, shutdownCh := ChanState.chClosed } : Server).shutdown ≠ 0 := by
    simp
  refine ⟨{ s with shutdown := 1, shutdownCh := ChanState.chClosed }, hmain, rfl, rfl,
    fun e4a e6a => shutdown_noop e4a e6a _ hne, fun n => ?_⟩
  simp only [shutdownTimes, hmain]
  exact shutdownTimes_fixed e4 e6 n _ hne

/-- Witness for claim C5 at a concrete live server. -/
theorem shutdown_idempotent_witness :
    wSrv.shutdown = 0 ∧ wSrv.shutdownCh = ChanState.chOpen ∧ wSrv.config = some wCfg ∧
    (∃ s1 : Server,
      Shutdown none none wSrv =
        Outcome.ok s1
          (Effect.closeChan ::
            ((if wSrv.ipv4List.isSome then [Effect.closeV4 none] else []) ++
              (if wCfg.ipv6 = true ∧ wSrv.ipv6List.isSome then [Effect.closeV6 none] else [])))
          none ∧
      s1.shutdown = 1 ∧ s1.shutdownCh = ChanState.chClosed ∧
      (∀ e4a e6a : Option String, Shutdown e4a e6a s1 = Outcome.ok s1 [] none) ∧
      (∀ n : Nat, shutdownTimes none none (n + 1) wSrv = shutdownTimes none none 1 wSrv)) :=
  ⟨rfl, rfl, rfl, shutdown_idempotent wSrv wCfg none none rfl rfl rfl⟩

/-- Claim C6 counterexample: on a live server whose IPv4 socket close
fails, the first Shutdown call performs the failing close yet returns
nil — the close error is not surfaced to the caller. -/
theorem shutdown_close_error_not_surfaced :
    Shutdown (some "close failed") none wSrv =
      Outcome.ok { wSrv with shutdown := 1, shutdownCh := ChanState.chClosed }
        [Effect.closeChan, Effect.closeV4 (some "close failed")] none := by
  unfold Shutdown
  simp [wSrv, wCfg]

/-- Claim C6 amended: a socket-close failure during the first Shutdown call
is discarded — the call still returns nil — while the shutdown flag
transition completes. -/
theorem shutdown_close_error_discarded (s : Server) (cfg : Config) (e4 e6 : Option String)
    (hflag : s.shutdown = 0) (hch : s.shutdownCh = ChanState.chOpen)
    (hcfg : s.config = some cfg) :
    ∃ (s1 : Server) (effs : List Effect),
      Shutdown e4 e6 s = Outcome.ok s1 effs none ∧ s1.shutdown = 1 :=
  ⟨{ s with shutdown := 1, shutdownCh := ChanState.chClosed },
    Effect.closeChan ::
      ((if s.ipv4List.isSome then [Effect.closeV4 e4] else []) ++
        (if cfg.ipv6 = true ∧ s.ipv6List.isSome then [Effect.closeV6 e6] else [])),
    by unfold Shutdown; simp [hflag, hch, hcfg], rfl⟩

/-- Witness for the amended claim C6 at a concrete live server with a
failing IPv4 close. -/
theorem shutdown_close_error_discarded_witness :
    wSrv.shutdown = 0 ∧ wSrv.shutdownCh = ChanState.chOpen ∧ wSrv.config = some wCfg ∧
    (∃ (s1 : Server) (effs : List Effect),
      Shutdown (some "close failed") none wSrv = Outcome.ok s1 effs none ∧ s1.shutdown = 1) :=
  ⟨rfl, rfl, rfl,
    shutdown_close_error_discarded wSrv wCfg (some "close failed") none rfl rfl rfl⟩

/-- Helper: the receive loop exits at once when the flag observation of the
first iteration is non-zero. -/
theorem recvRun_flag_pos (step : RecvStep) (rest : List RecvStep) (h : step.flag ≠ 0) :
    recvRun (step :: rest) = ([], some 0) := by
  unfold recvRun
  rw [if_pos h]

/-- Helper: when the first flag observation is zero the loop continues into
the rest of the trace whatever the read and handling errors were. -/
theorem recvRun_flag_zero (step : RecvStep) (rest : List RecvStep) (h : step.flag = 0) :
    (recvRun (step :: rest)).2 = (recvRun rest).2.map (· + 1) := by
  simp only [recvRun]
  rw [if_neg (fun hn => hn h)]

/-- Claim C9: the receive loop never exits because of a read or handling
error: over any trace it terminates exactly at the first iteration
whose shutdown-flag observation is non-zero, and a trace of all-zero
flag observations leaves the loop running whatever read or handling
errors it contains. -/
theorem recvRun_exit (trace : List RecvStep) :
    (∀ i : Nat, (recvRun trace).2 = some i ↔
      ∃ h : i < trace.length,
        (trace.get ⟨i, h⟩).flag ≠ 0 ∧ ∀ st ∈ trace.take i, st.flag = 0) ∧
    ((∀ st ∈ trace, st.flag = 0) → (recvRun trace).2 = none) := by
  induction trace with
  | nil =>
    refine ⟨fun i => ?_, fun _ => rfl⟩
    simp [recvRun]
  | cons step rest ih =>
    refine ⟨fun i => ?_, fun hall => ?_⟩
    · by_cases hf : step.flag = 0
      · rw [recvRun_flag_zero step rest hf]
        cases i with
        | zero =>
          constructor
          · intro hmap
            obtain ⟨a, _, haeq⟩ := Option.map_eq_some'.mp hmap
            omega
          · rintro ⟨h, hne, _⟩
            exact absurd hf hne
        | succ j =>
          constructor
          · intro hmap
            obtain ⟨a, ha, haeq⟩ := Option.map_eq_some'.mp hmap
            have haj : a = j := by omega
            rw [haj] at ha
            obtain ⟨hlt, hne, hall2⟩ := (ih.1 j).mp ha
            refine ⟨Nat.succ_lt_succ hlt, hne, ?_⟩
            intro st hst
            rw [List.take_succ_cons] at hst
            rcases List.mem_cons.mp hst with h1 | h2
            · rw [h1]; exact hf
            · exact hall2 st h2
          · rintro ⟨hlt, hne, hall2⟩
            have hlt' : j < rest.length := Nat.lt_of_succ_lt_succ hlt
            have hx : (recvRun rest).2 = some j := by
              refine (ih.1 j).mpr ⟨hlt', hne, ?_⟩
              intro st hst
              refine hall2 st ?_
              rw [List.take_succ_cons]
              exact List.mem_cons_of_mem _ hst
            rw [hx]
            rfl
      · rw [recvRun_flag_pos step rest hf]
        cases i with
        | zero =>
          constructor
          · intro _
            exact ⟨Nat.succ_pos _, hf, fun st hst => absurd hst (List.not_mem_nil st)⟩
          · intro _
            rfl
        | succ j =>
          constructor
          · intro habs
            have := Option.some.inj habs
            omega
          · rintro ⟨hlt, hne, hall2⟩
            refine absurd (hall2 step ?_) hf
            rw [List.take_succ_cons]
            exact List.mem_cons_self step _
    · by_cases hf : step.flag = 0
      · rw [recvRun_flag_zero step rest hf]
        rw [ih.2 (fun st hst => hall st (List.mem_cons_of_mem _ hst))]
        rfl
      · exact absurd (hall step (List.mem_cons_self step _)) hf

/-- Witness for claim C9 at a concrete trace: a read error and a handling
error both retry, and the loop exits at the third iteration, where the
flag is observed non-zero. -/
theorem recvRun_exit_witness :
    (recvRun wTrace).2 = some 2 ∧ ∀ st ∈ wTrace.take 2, st.flag = 0 :=
  ⟨((recvRun_exit wTrace).1 2).mpr ⟨by decide, by decide, by decide⟩, by decide⟩

end Mdns
